import Mathlib

/-!
Verification of the recovery control plane (`recovery.cpp`) against its
natural-language specification.  Each C++ function relevant to the claims is
shallowly embedded as an executable Lean definition; external collaborators
(bootloader-message library, installer, UI, device hooks, filesystem
syscalls) appear as explicit boolean/functional parameters, and side effects
are recorded as explicit event traces.
-/

namespace Recovery

/-! ## String utilities mirroring `android::base` helpers -/

/-- Splits a character list at newline characters, keeping empty pieces
(`android::base::Split(s, "\n")` semantics: always at least one piece). -/
def splitCharsNL : List Char → List (List Char)
  | [] => [[]]
  | c :: cs =>
    let r := splitCharsNL cs
    if c = '\n' then [] :: r
    else
      match r with
      | h :: t => (c :: h) :: t
      | [] => [[c]]

/-- `android::base::Split(s, "\n")`. -/
def splitNL (s : String) : List String :=
  (splitCharsNL s.data).map List.asString

/-- `android::base::StartsWith(s, p)`. -/
def strStartsWith (s p : String) : Bool :=
  p.data.isPrefixOf s.data

/-- `s.substr(n)`: drop the first `n` characters. -/
def strDrop (s : String) (n : Nat) : String :=
  (s.data.drop n).asString

/-- Whitespace as recognized by `isspace` (used by `android::base::Trim`). -/
def isSpaceChar (c : Char) : Bool :=
  c = ' ' || c = '\t' || c = '\n' || c = '\x0b' || c = '\x0c' || c = '\r'

/-- `android::base::Trim`. -/
def trimStr (s : String) : String :=
  (((s.data.dropWhile isSpaceChar).reverse.dropWhile isSpaceChar).reverse).asString

/-! ## Constants of `recovery.cpp` -/

def CACHE_LOG_DIR : String := "/cache/recovery"
def COMMAND_FILE : String := "/cache/recovery/command"
def LOG_FILE : String := "/cache/recovery/log"
def LOCALE_FILE : String := "/cache/recovery/last_locale"
def CONVERT_FBE_DIR : String := "/tmp/convert_fbe"
def CONVERT_FBE_FILE : String := "/tmp/convert_fbe/convert_fbe"
def CACHE_ROOT : String := "/cache"
def DATA_ROOT : String := "/data"
def METADATA_ROOT : String := "/metadata"
def RETRY_LIMIT : Int := 4

/-! ## C4: `wipe_data` (recovery.cpp lines 913-942)

The device hooks `PreWipeData`/`PostWipeData`, the three `erase_volume`
calls and the volume-table lookups are external collaborators; their
outcomes are the fields of `WipeDeps`.  Note the C++ `success &=` operator
does not short-circuit: each erase listed under a true guard is attempted
even when an earlier step failed, but `PostWipeData` runs only when
`success` still holds. -/

structure WipeDeps where
  preWipeData : Bool
  eraseData : Bool
  hasCache : Bool
  eraseCache : Bool
  hasMetadata : Bool
  eraseMetadata : Bool
  postWipeData : Bool

def wipe_data (d : WipeDeps) : Bool :=
  let success := d.preWipeData
  let success :=
    if success then
      let success := success && d.eraseData
      let success := if d.hasCache then success && d.eraseCache else success
      let success := if d.hasMetadata then success && d.eraseMetadata else success
      success
    else success
  let success := if success then success && d.postWipeData else success
  success

/-! ## C2: the data-volume / `convert_fbe` path of `erase_volume`
(recovery.cpp lines 631-702, the non-cache slice)

`mkdir`, `fopen`, `format_volume`, `remove`, `rmdir` are syscalls /
external collaborators; their outcomes are parameters and their
invocations are recorded as trace events. -/

inductive FbeEv
  | mkdirFbeDir
  | createFbeFile
  | formatVolumeWithDir (volume dir : String)
  | formatVolume (volume : String)
  | removeFbeFile
  | rmdirFbeDir
  deriving DecidableEq, Repr

structure FbeEnv where
  mkdirOk : Bool
  fopenOk : Bool
  formatResult : Int

/-- `erase_volume` restricted to a non-cache volume (the `is_cache` branches
are vacuous).  Returns `(result, successful-effect trace)`. -/
def erase_volume_noncache (volume : String) (reason : Option String) (e : FbeEnv) :
    Bool × List FbeEv :=
  let is_data := volume = DATA_ROOT
  if is_data ∧ reason = some "convert_fbe" then
    if !e.mkdirOk then
      (true, [])
    else if !e.fopenOk then
      (true, [FbeEv.mkdirFbeDir])
    else
      (e.formatResult == 0,
       [FbeEv.mkdirFbeDir, FbeEv.createFbeFile,
        FbeEv.formatVolumeWithDir volume CONVERT_FBE_DIR,
        FbeEv.removeFbeFile, FbeEv.rmdirFbeDir])
  else
    (e.formatResult == 0, [FbeEv.formatVolume volume])

/-- A format of the volume occurred in the trace. -/
def formattedVolume (volume : String) (tr : List FbeEv) : Bool :=
  tr.any fun ev =>
    match ev with
    | FbeEv.formatVolumeWithDir v _ => v = volume
    | FbeEv.formatVolume v => v = volume
    | _ => false

/-! ## C3: `get_args` (recovery.cpp lines 421-486)

`read_bootloader_message` / `update_bootloader_message` belong to the
external bootloader-message library; the record read is a parameter and the
write is returned as the list of options handed to it.  `boot.recovery` is
the C-string content of the record's recovery field. -/

structure BootMsg where
  stage : String
  command : String
  status : String
  recovery : String

/-- The token filter of `get_args`: skip empty and NUL-filled tokens. -/
def keepToken (t : String) : Bool :=
  match t.data with
  | [] => false
  | c :: _ => c != '\x00'

/-- Result of `get_args`: the resolved argument vector, whether the
command-queue file path was consulted, and the options written back into
the bootloader control block. -/
structure GetArgsResult where
  args : List String
  commandFileConsulted : Bool
  bcbOptions : List String
  deriving DecidableEq, Repr

def get_args (argv : List String) (boot : BootMsg) (hasCache : Bool)
    (commandFileContent : Option String) : GetArgsResult :=
  let args := argv
  -- if arguments weren't supplied, look in the bootloader control block
  let args :=
    if args.length = 1 then
      match splitNL boot.recovery with
      | t0 :: rest => if t0 = "recovery" then args ++ rest.filter keepToken else args
      | [] => args
    else args
  -- if that doesn't work, try the command file (if we have /cache)
  let consulted := args.length == 1 && hasCache
  let args :=
    if consulted then
      match commandFileContent with
      | some content => args ++ (splitNL content).filter keepToken
      | none => args
    else args
  -- write the arguments (excluding the filename in args[0]) back into the BCB
  { args := args, commandFileConsulted := consulted, bcbOptions := args.drop 1 }

/-! ## C1 / C8: the install branch of `main`
(recovery.cpp lines 1864-1921) together with
`set_retry_bootloader_message` (lines 1584-1598) and `log_failure_code`
(lines 1612-1625)

`install_package`, battery telemetry, the boot-reason property and
`reboot` are external collaborators; their outcomes are fields of
`MainEnv`.  Every externally visible effect is recorded in order as an
`Ev`. -/

/-- Install statuses (`install.h`, an external header of this repo). -/
inductive InstallStatus
  | success
  | none
  | error
  | corrupt
  | skipped
  | retry
  | unverified
  deriving DecidableEq, Repr

/-- Numeric error codes from the external `error_code.h` header
(`kLowBattery`, `kBootreasonInBlacklist`); the claims only rely on their
appearing as "error: <code>", not on the values. -/
def kLowBattery : Nat := 20
def kBootreasonInBlacklist : Nat := 23

/-- `log_failure_code`: the 3-line failure record written to the
temporary install-result file. -/
def log_failure_code (code : Nat) (update_package : String) : List String :=
  [update_package, "0", "error: " ++ toString code]

/-- `set_retry_bootloader_message`: the options written into the BCB -
the argument vector with every `--retry_count`-prefixed token removed and
the fresh `--retry_count=<n>` token appended. -/
def set_retry_bootloader_message (retry_count : Int) (args : List String) :
    List String :=
  (args.filter fun arg => !strStartsWith arg "--retry_count") ++
    ["--retry_count=" ++ toString retry_count]

inductive Ev
  | logFailure (record : List String)
  | setBCB (options : List String)
  | invokeInstaller (retryCount : Int)
  | wipeCacheNow
  | copyLogsNow
  | rebootRecoveryRequested
  deriving DecidableEq, Repr

structure MainEnv where
  updatePackage : String
  batteryOk : Bool
  bootreasonBlacklisted : Bool
  retryCount : Int
  args : List String
  installResult : InstallStatus
  wipeCacheRequested : Bool

/-- The `update_package != nullptr` branch of `main`: returns the final
`status` and the ordered effect trace.  (The trailing
`is_ro_debuggable()`-gated `ShowText` and the later interactive
`prompt_and_wait` are display-only and outside the modeled effects.) -/
def installMain (e : MainEnv) : InstallStatus × List Ev :=
  if !e.batteryOk then
    (InstallStatus.skipped,
     [Ev.logFailure (log_failure_code kLowBattery e.updatePackage)])
  else if e.bootreasonBlacklisted then
    (InstallStatus.skipped,
     [Ev.logFailure (log_failure_code kBootreasonInBlacklist e.updatePackage)])
  else
    -- fresh update: initialize the retry_count in the BCB to 1
    let pre : List Ev :=
      if e.retryCount = 0 then
        [Ev.setBCB (set_retry_bootloader_message (e.retryCount + 1) e.args)]
      else []
    let evs := pre ++ [Ev.invokeInstaller e.retryCount]
    let status := e.installResult
    if status = InstallStatus.success then
      (status, evs ++ if e.wipeCacheRequested then [Ev.wipeCacheNow] else [])
    else if status = InstallStatus.retry ∧ e.retryCount < RETRY_LIMIT then
      (status,
       evs ++ [Ev.copyLogsNow,
               Ev.setBCB (set_retry_bootloader_message (e.retryCount + 1) e.args),
               Ev.rebootRecoveryRequested])
    else
      (status, evs)

/-! ## C6 / C10: `check_wipe_package` (recovery.cpp lines 1046-1099) and
`wipe_ab_device` (lines 1103-1129)

`read_wipe_package`, `verify_package`, the zip library, the property
store and `secure_wipe_partition` are external collaborators; their
outcomes are fields of `WipeEnv` and their invocations are trace
events. -/

/-- The four flags of the metadata-checking loop in `check_wipe_package`. -/
structure MetaFlags where
  otaTypeMatched : Bool
  deviceTypeMatched : Bool
  hasSerialNumber : Bool
  serialNumberMatched : Bool
  deriving DecidableEq, Repr

/-- One iteration of the metadata loop (recovery.cpp lines 1084-1097). -/
def metaStep (productProp serialProp : String) (st : MetaFlags) (line : String) :
    MetaFlags :=
  if line = "ota-type=BRICK" then
    { st with otaTypeMatched := true }
  else if strStartsWith line "pre-device=" then
    { st with deviceTypeMatched := strDrop line 11 == productProp }
  else if strStartsWith line "serialno=" then
    { st with hasSerialNumber := true,
              serialNumberMatched := strDrop line 9 == serialProp }
  else st

structure WipeEnv where
  readOk : Bool
  verifyOk : Bool
  zipOpenOk : Bool
  metadataOk : Bool
  metadata : String
  productProp : String
  serialProp : String

inductive AbEv
  | readStagedPackage
  | verifyPackage
  | readPartitionManifest
  | secureWipe (partition : String)
  deriving DecidableEq, Repr

def check_wipe_package (wipe_package_size : Nat) (e : WipeEnv) :
    Bool × List AbEv :=
  if wipe_package_size = 0 then (false, [])
  else if !e.readOk then (false, [AbEv.readStagedPackage])
  else if !e.verifyOk then
    (false, [AbEv.readStagedPackage, AbEv.verifyPackage])
  else if !e.zipOpenOk then
    (false, [AbEv.readStagedPackage, AbEv.verifyPackage])
  else if !e.metadataOk then
    (false, [AbEv.readStagedPackage, AbEv.verifyPackage])
  else
    let st := (splitNL e.metadata).foldl
      (metaStep e.productProp e.serialProp) (MetaFlags.mk false false false false)
    (st.otaTypeMatched && st.deviceTypeMatched &&
       (!st.hasSerialNumber || st.serialNumberMatched),
     [AbEv.readStagedPackage, AbEv.verifyPackage])

def wipe_ab_device (wipe_package_size : Nat) (e : WipeEnv)
    (partitionManifest : Option String) : Bool × List AbEv :=
  let checked := check_wipe_package wipe_package_size e
  if !checked.1 then (false, checked.2)
  else
    match partitionManifest with
    | Option.none => (false, checked.2 ++ [AbEv.readPartitionManifest])
    | Option.some content =>
      let parts := ((splitNL content).map trimStr).filter
        fun p => !(strStartsWith p "#") && !(p.isEmpty)
      (true, checked.2 ++ AbEv.readPartitionManifest :: parts.map AbEv.secureWipe)

/-- The value carried by the last metadata line with the given tag:
`lastTagValue tag n lines` folds exactly like the loop's repeated
assignment, keeping `substr(n)` of the last line starting with `tag`. -/
def lastTagValue (tag : String) (n : Nat) (lines : List String) : Option String :=
  lines.foldl
    (fun acc l => if strStartsWith l tag then some (strDrop l n) else acc)
    none

/-- Folding the tag scan from an arbitrary accumulator. -/
lemma lastTagValue_foldl_acc (tag : String) (n : Nat) (ls : List String) :
    ∀ a : Option String,
      ls.foldl
        (fun acc l => if strStartsWith l tag then some (strDrop l n) else acc)
        a =
      (lastTagValue tag n ls).elim a some := by
  induction ls with
  | nil => intro a; simp [lastTagValue]
  | cons l ls ih =>
    intro a
    simp only [lastTagValue, List.foldl_cons]
    by_cases h : strStartsWith l tag = true
    · rw [if_pos h, if_pos h, ih (some (strDrop l n))]
      cases lastTagValue tag n ls <;> simp [lastTagValue]
    · rw [if_neg h, if_neg h, ih a]
      rfl

/-- A tag value only arises from a line starting with the tag. -/
lemma lastTagValue_eq_none (tag : String) (n : Nat) (lines : List String)
    (h : lines.any (fun l => strStartsWith l tag) = false) :
    lastTagValue tag n lines = none := by
  induction lines with
  | nil => rfl
  | cons l ls ih =>
    simp only [List.any_cons, Bool.or_eq_false_iff] at h
    simp only [lastTagValue, List.foldl_cons]
    rw [if_neg (by simp [h.1])]
    exact ih h.2

/-- A string starting with `p` has `p`'s first character as its own. -/
lemma strStartsWith_head (l p : String) (h : strStartsWith l p = true)
    (c : Char) (hp : p.data.head? = some c) : l.data.head? = some c := by
  obtain ⟨pd⟩ := p
  obtain ⟨ld⟩ := l
  unfold strStartsWith at h
  cases pd with
  | nil => cases hp
  | cons pc pcs =>
    cases ld with
    | nil => cases h
    | cons lc lcs =>
      simp only [List.isPrefixOf, Bool.and_eq_true, beq_iff_eq] at h
      simp only [List.head?] at hp ⊢
      rw [← h.1]
      exact hp

lemma preDevice_head (l : String) (h : strStartsWith l "pre-device=" = true) :
    l.data.head? = some 'p' :=
  strStartsWith_head l "pre-device=" h 'p' (by decide)

lemma serialno_head (l : String) (h : strStartsWith l "serialno=" = true) :
    l.data.head? = some 's' :=
  strStartsWith_head l "serialno=" h 's' (by decide)

lemma preDevice_not_serialno (l : String)
    (h : strStartsWith l "pre-device=" = true) :
    strStartsWith l "serialno=" = false := by
  cases hs : strStartsWith l "serialno=" with
  | false => rfl
  | true =>
    have h1 := preDevice_head l h
    have h2 := serialno_head l hs
    rw [h1] at h2
    cases h2

/-- The OTA-type flag of the metadata loop is sticky: it ends up true iff
it started true or some line equals `ota-type=BRICK`. -/
lemma foldl_meta_ota (pp sp : String) (lines : List String) :
    ∀ st : MetaFlags,
      (lines.foldl (metaStep pp sp) st).otaTypeMatched =
        (st.otaTypeMatched || lines.contains "ota-type=BRICK") := by
  induction lines with
  | nil => intro st; simp
  | cons l ls ih =>
    intro st
    simp only [List.foldl_cons, ih, List.contains_cons]
    by_cases h1 : l = "ota-type=BRICK"
    · subst h1
      simp [metaStep]
    · have hbk : ("ota-type=BRICK" == l) = false :=
        beq_eq_false_iff_ne.mpr (Ne.symm h1)
      rw [hbk]
      simp only [Bool.false_or]
      congr 1
      unfold metaStep
      rw [if_neg h1]
      split_ifs <;> rfl

/-- Unfolding the last-tag scan one line at a time. -/
lemma lastTagValue_cons (tag : String) (n : Nat) (l : String) (ls : List String) :
    lastTagValue tag n (l :: ls) =
      if strStartsWith l tag then
        (lastTagValue tag n ls).elim (some (strDrop l n)) some
      else lastTagValue tag n ls := by
  by_cases h : strStartsWith l tag = true
  · rw [if_pos h]
    unfold lastTagValue
    rw [List.foldl_cons, if_pos h, lastTagValue_foldl_acc]
    rfl
  · rw [if_neg h]
    unfold lastTagValue
    rw [List.foldl_cons, if_neg h]

/-- The device-type flag is overwritten by each `pre-device=` line: it ends
as the comparison of the last such line's value with the product property,
or keeps its initial value if no such line occurs. -/
lemma foldl_meta_dev (pp sp : String) (lines : List String) :
    ∀ st : MetaFlags,
      (lines.foldl (metaStep pp sp) st).deviceTypeMatched =
        (lastTagValue "pre-device=" 11 lines).elim st.deviceTypeMatched
          (· == pp) := by
  induction lines with
  | nil => intro st; simp [lastTagValue]
  | cons l ls ih =>
    intro st
    simp only [List.foldl_cons, ih, lastTagValue_cons]
    by_cases h2 : strStartsWith l "pre-device=" = true
    · have h1 : l ≠ "ota-type=BRICK" := by
        rintro rfl
        exact absurd h2 (by decide)
      have hstep : (metaStep pp sp st l).deviceTypeMatched =
          (strDrop l 11 == pp) := by
        unfold metaStep
        rw [if_neg h1, if_pos h2]
      rw [if_pos h2, hstep]
      cases lastTagValue "pre-device=" 11 ls <;> rfl
    · have hstep : (metaStep pp sp st l).deviceTypeMatched =
          st.deviceTypeMatched := by
        unfold metaStep
        by_cases ha : l = "ota-type=BRICK"
        · rw [if_pos ha]
        · rw [if_neg ha, if_neg h2]
          by_cases hcs : strStartsWith l "serialno=" = true
          · rw [if_pos hcs]
          · rw [if_neg hcs]
      rw [if_neg h2, hstep]

/-- The has-serial flag records whether any `serialno=` line occurred. -/
lemma foldl_meta_hasSerial (pp sp : String) (lines : List String) :
    ∀ st : MetaFlags,
      (lines.foldl (metaStep pp sp) st).hasSerialNumber =
        (st.hasSerialNumber ||
          lines.any fun l => strStartsWith l "serialno=") := by
  induction lines with
  | nil => intro st; simp
  | cons l ls ih =>
    intro st
    simp only [List.foldl_cons, ih, List.any_cons]
    by_cases h3 : strStartsWith l "serialno=" = true
    · have h1 : l ≠ "ota-type=BRICK" := by
        rintro rfl
        exact absurd h3 (by decide)
      have h2 : strStartsWith l "pre-device=" ≠ true := by
        intro hp
        rw [preDevice_not_serialno l hp] at h3
        cases h3
      have hstep : (metaStep pp sp st l).hasSerialNumber = true := by
        unfold metaStep
        rw [if_neg h1, if_neg h2, if_pos h3]
      rw [hstep]
      simp [h3]
    · have hstep : (metaStep pp sp st l).hasSerialNumber =
          st.hasSerialNumber := by
        unfold metaStep
        by_cases ha : l = "ota-type=BRICK"
        · rw [if_pos ha]
        · rw [if_neg ha]
          by_cases hb : strStartsWith l "pre-device=" = true
          · rw [if_pos hb]
          · rw [if_neg hb, if_neg h3]
      rw [hstep]
      simp [h3]

/-- The serial-match flag is overwritten by each `serialno=` line: it ends
as the comparison of the last such line's value with the serial property,
or keeps its initial value if no such line occurs. -/
lemma foldl_meta_serial (pp sp : String) (lines : List String) :
    ∀ st : MetaFlags,
      (lines.foldl (metaStep pp sp) st).serialNumberMatched =
        (lastTagValue "serialno=" 9 lines).elim st.serialNumberMatched
          (· == sp) := by
  induction lines with
  | nil => intro st; simp [lastTagValue]
  | cons l ls ih =>
    intro st
    simp only [List.foldl_cons, ih, lastTagValue_cons]
    by_cases h3 : strStartsWith l "serialno=" = true
    · have h1 : l ≠ "ota-type=BRICK" := by
        rintro rfl
        exact absurd h3 (by decide)
      have h2 : strStartsWith l "pre-device=" ≠ true := by
        intro hp
        rw [preDevice_not_serialno l hp] at h3
        cases h3
      have hstep : (metaStep pp sp st l).serialNumberMatched =
          (strDrop l 9 == sp) := by
        unfold metaStep
        rw [if_neg h1, if_neg h2, if_pos h3]
      rw [if_pos h3, hstep]
      cases lastTagValue "serialno=" 9 ls <;> rfl
    · have hstep : (metaStep pp sp st l).serialNumberMatched =
          st.serialNumberMatched := by
        unfold metaStep
        by_cases ha : l = "ota-type=BRICK"
        · rw [if_pos ha]
        · rw [if_neg ha]
          by_cases hb : strStartsWith l "pre-device=" = true
          · rw [if_pos hb]
          · rw [if_neg hb, if_neg h3]
      rw [if_neg h3, hstep]

/-! ## C7: `get_menu_selection` (recovery.cpp lines 732-816)

The `Device::` action codes live in an external header.  Modelled from the
spec: the reserved primitives are distinct negative codes and non-negative
codes are direct action indices; the concrete values below are arbitrary
distinct negatives.  `ui->SelectMenu` / `ui->ScrollMenu` and the
per-device `HandleMenuKey` are external collaborators: the `MenuUI`
functions give the UI's replies and each input event carries the action
code the collaborators produced for it. -/

def kNoAction : Int := -1
def kHighlightUp : Int := -2
def kHighlightDown : Int := -3
def kScrollUp : Int := -4
def kScrollDown : Int := -5
def kInvokeItem : Int := -6
def kGoBack : Int := -7
def kGoHome : Int := -8
def kRefresh : Int := -9

structure MenuUI where
  selectMenu : Int → Int
  scrollMenu : Int → Int

/-- One `WaitInputEvent` outcome: a timeout (with whether text was ever
visible), a touch resolved by `ui->SelectMenu(evt.pos())` to `touchSel`,
or a key resolved by `device->HandleMenuKey` to `action`. -/
inductive MenuEvent
  | timeout (textEverVisible : Bool)
  | touch (touchSel : Int)
  | key (action : Int)

/-- Outcome of one loop iteration: keep waiting with a new highlight, or
finish with a chosen item / sentinel. -/
inductive MenuStep
  | cont (selected : Int)
  | done (chosenItem : Int)

/-- The body of the `while (chosen_item < 0)` loop for one action code
(the `switch (action)` plus the direct-index branch and the
Back/Home/Refresh break check). -/
def menuAction (refreshable menuOnly : Bool) (ui : MenuUI) (selected action : Int) :
    MenuStep :=
  if action < 0 then
    if action = kHighlightUp then MenuStep.cont (ui.selectMenu (selected - 1))
    else if action = kHighlightDown then MenuStep.cont (ui.selectMenu (selected + 1))
    else if action = kScrollUp then MenuStep.cont (ui.scrollMenu (-1))
    else if action = kScrollDown then MenuStep.cont (ui.scrollMenu 1)
    else if action = kInvokeItem then
      MenuStep.done (if selected < 0 then kGoBack else selected)
    else if action = kGoBack then MenuStep.done kGoBack
    else if action = kGoHome then MenuStep.done kGoHome
    else if action = kRefresh then
      if refreshable then MenuStep.done kRefresh else MenuStep.cont selected
    else MenuStep.cont selected
  else if !menuOnly then MenuStep.done action
  else MenuStep.cont selected

/-- One loop iteration on an input event. -/
def menuStep (refreshable menuOnly : Bool) (ui : MenuUI) (selected : Int) :
    MenuEvent → MenuStep
  | MenuEvent.timeout textEverVisible =>
    if textEverVisible then MenuStep.cont selected else MenuStep.done (-1)
  | MenuEvent.touch touchSel =>
    if touchSel < 0 then menuAction refreshable menuOnly ui selected touchSel
    else menuAction refreshable menuOnly ui touchSel kInvokeItem
  | MenuEvent.key action => menuAction refreshable menuOnly ui selected action

/-- `get_menu_selection` driven by a finite stream of input events; `none`
means the modeled input ran out while the loop was still waiting. -/
def get_menu_selection (refreshable menuOnly : Bool) (ui : MenuUI)
    (selected : Int) : List MenuEvent → Option Int
  | [] => none
  | ev :: evs =>
    match menuStep refreshable menuOnly ui selected ev with
    | MenuStep.cont selected' => get_menu_selection refreshable menuOnly ui selected' evs
    | MenuStep.done chosen => some chosen

/-! ## C5: the cache path of `erase_volume` (recovery.cpp lines 631-721)

A cache-volume log file with its `stat` metadata and byte content; the
`saved_log_file` snapshot keeps the first `min(size, 512 KiB)` bytes. -/

structure LogFile where
  name : String
  mode : Nat
  uid : Nat
  gid : Nat
  data : List Nat
  deriving DecidableEq, Repr

/-- The cache-volume state seen by `erase_volume`: the files of the
recovery log directory and the `tmplog_offset` cursor. -/
structure CacheState where
  logFiles : List LogFile
  tmplogOffset : Nat
  deriving DecidableEq, Repr

/-- Log files captured before the reformat: names starting with `last_`
or equal to `log`. -/
def isSavedLogName (n : String) : Bool :=
  strStartsWith n "last_" || n == "log"

/-- The 512 KiB snapshot cap (`1 << 19`). -/
def truncCap : Nat := 2 ^ 19

/-- `erase_volume` on the cache volume, from the snapshot loop through the
reformat, the log-restore loop and the `tmplog_offset = 0` reset (lines
637-721).  `format_volume`, `ensure_path_mounted` / `mkdir_recursively`
and each `WriteStringToFile` are external collaborators whose outcomes are
parameters; the trailing `copy_logs()` call (line 722) re-enters the
log-rotation collaborators and is modeled separately (see `copy_logs`). -/
def erase_volume_cache_restore (s : CacheState) (formatResult : Int)
    (mountAndMkdirOk : Bool) (writeOk : String → Bool) : Bool × CacheState :=
  -- load past logs ("last_*") and the current log ("log"), truncated to 512 KiB
  let log_files := (s.logFiles.filter fun f => isSavedLogName f.name).map
    fun f => { f with data := f.data.take truncCap }
  -- format_volume: the volume's contents are gone
  let afterFormat : CacheState := { logFiles := [], tmplogOffset := s.tmplogOffset }
  -- re-create the log dir and write back the log entries with their
  -- original content, mode and ownership
  let restored : CacheState :=
    if mountAndMkdirOk then
      { afterFormat with logFiles := log_files.filter fun f => writeOk f.name }
    else afterFormat
  -- any part of the log copied to cache is gone: reset the offset cursor
  (formatResult == 0, { restored with tmplogOffset := 0 })

/-! ## C9: `copy_logs` (recovery.cpp lines 555-589) and `finish_recovery`
(lines 594-623)

Process-wide globals (`locale`, `has_cache`, `modified_flash`) are fixed
for the lifetime of the process and hence across repeated
`finish_recovery` calls; collaborator outcomes (mount / write / clear
success) are the `FinEnv` fields.  The observable state carries the
saved-locale file, whether the control block holds the normal-boot
record, the command-queue file and the cache mount; the log files touched
by `copy_logs` live behind the external rotation collaborators and are
represented by the `copiedLogs` event. -/

structure FinGlobals where
  locale : String
  hasCache : Bool
  modifiedFlash : Bool

structure FinEnv where
  mountLocaleOk : Bool
  bcbClearOk : Bool
  mountCmdOk : Bool

structure SysState where
  localeFile : Option String
  bcbCleared : Bool
  commandFileExists : Bool
  cacheMounted : Bool
  deriving DecidableEq, Repr

inductive FinEv
  | savedLocale
  | copiedLogs
  | clearedBCB
  | removedCommandFile
  deriving DecidableEq, Repr

/-- `copy_logs`: rotates and records the session log only when
`modified_flash` is set, returning immediately otherwise. -/
def copy_logs (modifiedFlash : Bool) : List FinEv :=
  if !modifiedFlash then [] else [FinEv.copiedLogs]

def finish_recovery (g : FinGlobals) (env : FinEnv) (s : SysState) :
    SysState × List FinEv :=
  -- save the locale to cache (best effort: mount + write)
  let step1 : SysState × List FinEv :=
    if ¬g.locale.isEmpty ∧ g.hasCache then
      if env.mountLocaleOk then
        ({ s with localeFile := some g.locale }, [FinEv.savedLocale])
      else (s, [])
    else (s, [])
  let e2 := copy_logs g.modifiedFlash
  -- reset to normal system boot so recovery won't cycle indefinitely
  let step3 : SysState × List FinEv :=
    if env.bcbClearOk then
      ({ step1.1 with bcbCleared := true }, [FinEv.clearedBCB])
    else (step1.1, [])
  -- remove the command file and unmount cache
  let step4 : SysState × List FinEv :=
    if g.hasCache then
      if env.mountCmdOk then
        ({ step3.1 with commandFileExists := false, cacheMounted := false },
         [FinEv.removedCommandFile])
      else ({ step3.1 with cacheMounted := false }, [])
    else (step3.1, [])
  (step4.1, step1.2 ++ e2 ++ step3.2 ++ step4.2)

/-! ## Theorems -/

/-- C4: the data wipe succeeds iff the pre-hook, the data erase, the cache
erase (when a cache volume exists), the metadata erase (when a metadata
volume exists) and the post-hook all succeed; any single failure among them
makes the overall result a failure. -/
theorem wipe_data_success_iff (d : WipeDeps) :
    wipe_data d =
      (d.preWipeData && d.eraseData && (!d.hasCache || d.eraseCache) &&
       (!d.hasMetadata || d.eraseMetadata) && d.postWipeData) := by
  rcases d with ⟨pre, ed, hc, ec, hm, em, post⟩
  simp only [wipe_data]
  cases pre <;> cases ed <;> cases hc <;> cases ec <;> cases hm <;> cases em <;>
    cases post <;> rfl

/-- C2 counterexample: erasing the data volume with reason `convert_fbe`
(breadcrumb creation succeeding, `format_volume` failing) does format the
volume — the format is not skipped — and returns failure, contradicting
"skips formatting entirely ... and returns success without formatting". -/
theorem erase_volume_convert_fbe_formats :
    (erase_volume_noncache DATA_ROOT (some "convert_fbe") ⟨true, true, 1⟩).1 = false ∧
    formattedVolume DATA_ROOT
      (erase_volume_noncache DATA_ROOT (some "convert_fbe") ⟨true, true, 1⟩).2 = true := by
  constructor <;> rfl

/-- C2 (amended): erasing the data volume while the reason is `convert_fbe`
creates the breadcrumb directory and file, then formats the volume passing
the breadcrumb directory, then removes the breadcrumb file and directory,
returning success iff the format succeeded; only when creating the
breadcrumb directory or file fails does it return success without
formatting. -/
theorem erase_volume_convert_fbe_spec (e : FbeEnv) (reason : Option String)
    (hr : reason = some "convert_fbe") :
    ((e.mkdirOk = true → e.fopenOk = true →
       erase_volume_noncache DATA_ROOT reason e =
         (e.formatResult == 0,
          [FbeEv.mkdirFbeDir, FbeEv.createFbeFile,
           FbeEv.formatVolumeWithDir DATA_ROOT CONVERT_FBE_DIR,
           FbeEv.removeFbeFile, FbeEv.rmdirFbeDir])) ∧
     ((e.mkdirOk = false ∨ e.fopenOk = false) →
       (erase_volume_noncache DATA_ROOT reason e).1 = true ∧
       formattedVolume DATA_ROOT (erase_volume_noncache DATA_ROOT reason e).2 = false)) := by
  subst hr
  obtain ⟨mk, fo, fr⟩ := e
  cases mk <;> cases fo
  · exact ⟨fun h _ => (nomatch h), fun _ => ⟨rfl, rfl⟩⟩
  · exact ⟨fun h _ => (nomatch h), fun _ => ⟨rfl, rfl⟩⟩
  · exact ⟨fun _ h => (nomatch h), fun _ => ⟨rfl, rfl⟩⟩
  · refine ⟨fun _ _ => rfl, fun h => ?_⟩
    rcases h with h | h <;> cases h

/-- C1: the bounded power-cycle-safe retry protocol.  With the battery and
boot-reason preconditions passing: (a) a fresh request (parsed retry count
0) persists `--retry_count=1` into the BCB before the installer is
invoked; (b) a Retry-classified result below the retry limit increments
the counter by exactly one, re-persists it with the same argument vector
(old `--retry_count` token replaced), and requests a reboot back into
recovery; (c) at or beyond the limit a Retry result triggers neither a
BCB re-persist nor a reboot and the failure status falls through. -/
theorem install_retry_protocol (e : MainEnv)
    (hb : e.batteryOk = true) (hbl : e.bootreasonBlacklisted = false) :
    (e.retryCount = 0 →
       (installMain e).2.take 2 =
         [Ev.setBCB (set_retry_bootloader_message 1 e.args),
          Ev.invokeInstaller 0]) ∧
    (e.installResult = InstallStatus.retry → e.retryCount < RETRY_LIMIT →
       installMain e =
         (InstallStatus.retry,
          (if e.retryCount = 0 then
             [Ev.setBCB (set_retry_bootloader_message 1 e.args)]
           else []) ++
          [Ev.invokeInstaller e.retryCount,
           Ev.copyLogsNow,
           Ev.setBCB (set_retry_bootloader_message (e.retryCount + 1) e.args),
           Ev.rebootRecoveryRequested])) ∧
    (e.installResult = InstallStatus.retry → RETRY_LIMIT ≤ e.retryCount →
       installMain e =
         (InstallStatus.retry,
          (if e.retryCount = 0 then
             [Ev.setBCB (set_retry_bootloader_message 1 e.args)]
           else []) ++
          [Ev.invokeInstaller e.retryCount])) := by
  refine ⟨?_, ?_, ?_⟩
  · intro h0
    simp only [installMain, hb, hbl, h0, Bool.not_true, Bool.false_eq_true,
      if_false, if_true, ite_true, ite_false, if_pos rfl]
    split
    · simp
    · split <;> simp
  · intro hres hlt
    have hlt4 : e.retryCount < 4 := by simpa [RETRY_LIMIT] using hlt
    by_cases h0 : e.retryCount = 0 <;>
      simp [installMain, hb, hbl, hres, h0, hlt4, RETRY_LIMIT]
  · intro hres hge
    have hnlt : ¬(e.retryCount < RETRY_LIMIT) := not_lt.mpr hge
    by_cases h0 : e.retryCount = 0
    · exfalso
      rw [h0] at hge
      simp only [RETRY_LIMIT] at hge
      omega
    · simp [installMain, hb, hbl, hres, h0, hnlt]

/-- A concrete fresh-install environment whose installer reports Retry. -/
def retryEnvW : MainEnv :=
  { updatePackage := "/cache/a.zip"
    batteryOk := true
    bootreasonBlacklisted := false
    retryCount := 0
    args := ["recovery", "--update_package=/cache/a.zip", "--retry_count=0"]
    installResult := InstallStatus.retry
    wipeCacheRequested := false }

/-- Witness for `install_retry_protocol` at `retryEnvW`. -/
theorem install_retry_protocol_witness :
    retryEnvW.batteryOk = true ∧ retryEnvW.bootreasonBlacklisted = false ∧
    ((retryEnvW.retryCount = 0 →
       (installMain retryEnvW).2.take 2 =
         [Ev.setBCB (set_retry_bootloader_message 1 retryEnvW.args),
          Ev.invokeInstaller 0]) ∧
     (retryEnvW.installResult = InstallStatus.retry →
        retryEnvW.retryCount < RETRY_LIMIT →
       installMain retryEnvW =
         (InstallStatus.retry,
          (if retryEnvW.retryCount = 0 then
             [Ev.setBCB (set_retry_bootloader_message 1 retryEnvW.args)]
           else []) ++
          [Ev.invokeInstaller retryEnvW.retryCount,
           Ev.copyLogsNow,
           Ev.setBCB (set_retry_bootloader_message (retryEnvW.retryCount + 1)
             retryEnvW.args),
           Ev.rebootRecoveryRequested])) ∧
     (retryEnvW.installResult = InstallStatus.retry →
        RETRY_LIMIT ≤ retryEnvW.retryCount →
       installMain retryEnvW =
         (InstallStatus.retry,
          (if retryEnvW.retryCount = 0 then
             [Ev.setBCB (set_retry_bootloader_message 1 retryEnvW.args)]
           else []) ++
          [Ev.invokeInstaller retryEnvW.retryCount]))) :=
  ⟨rfl, rfl, install_retry_protocol retryEnvW rfl rfl⟩

/-- C8: a failing battery check or a blacklisted boot reason short-circuits
the install to Skipped; the installer is never invoked and the structured
3-line failure record (package path, "0", "error: <code>") is the only
effect. -/
theorem install_preconditions_skip (e : MainEnv) :
    (e.batteryOk = false →
       installMain e =
         (InstallStatus.skipped,
          [Ev.logFailure (log_failure_code kLowBattery e.updatePackage)]) ∧
       (∀ rc, Ev.invokeInstaller rc ∉ (installMain e).2)) ∧
    (e.batteryOk = true → e.bootreasonBlacklisted = true →
       installMain e =
         (InstallStatus.skipped,
          [Ev.logFailure
            (log_failure_code kBootreasonInBlacklist e.updatePackage)]) ∧
       (∀ rc, Ev.invokeInstaller rc ∉ (installMain e).2)) ∧
    (∀ code pkg, log_failure_code code pkg =
       [pkg, "0", "error: " ++ toString code] ∧
       (log_failure_code code pkg).length = 3) := by
  refine ⟨?_, ?_, fun code pkg => ⟨rfl, rfl⟩⟩
  · intro hb
    have h : installMain e =
        (InstallStatus.skipped,
         [Ev.logFailure (log_failure_code kLowBattery e.updatePackage)]) := by
      simp [installMain, hb]
    refine ⟨h, fun rc => ?_⟩
    rw [h]
    simp
  · intro hb hbl
    have h : installMain e =
        (InstallStatus.skipped,
         [Ev.logFailure
           (log_failure_code kBootreasonInBlacklist e.updatePackage)]) := by
      simp [installMain, hb, hbl]
    refine ⟨h, fun rc => ?_⟩
    rw [h]
    simp

/-- A concrete low-battery install environment. -/
def lowBatteryEnvW : MainEnv :=
  { updatePackage := "/cache/a.zip"
    batteryOk := false
    bootreasonBlacklisted := false
    retryCount := 0
    args := []
    installResult := InstallStatus.none
    wipeCacheRequested := false }

/-- Witness for `install_preconditions_skip` at `lowBatteryEnvW`. -/
theorem install_preconditions_skip_witness :
    installMain lowBatteryEnvW =
      (InstallStatus.skipped,
       [Ev.logFailure (log_failure_code kLowBattery lowBatteryEnvW.updatePackage)]) ∧
    (∀ rc, Ev.invokeInstaller rc ∉ (installMain lowBatteryEnvW).2) :=
  (install_preconditions_skip lowBatteryEnvW).1 rfl

/-- C5: after the cache reformat-and-restore, every log-directory file
whose name starts with `last_` or equals `log` exists again with
byte-identical content up to the 512 KiB cap and its original mode, owner
and group, and the incremental log-copy offset cursor is reset to zero
(assuming the log directory could be re-created and the file's write-back
succeeded). -/
theorem erase_volume_cache_preserves_logs (s : CacheState) (fmt : Int)
    (writeOk : String → Bool) (f : LogFile)
    (hmem : f ∈ s.logFiles) (hname : isSavedLogName f.name = true)
    (hwrite : writeOk f.name = true) :
    (∃ g ∈ ((erase_volume_cache_restore s fmt true writeOk).2).logFiles,
        g.name = f.name ∧ g.data = f.data.take truncCap ∧
        g.mode = f.mode ∧ g.uid = f.uid ∧ g.gid = f.gid) ∧
    ((erase_volume_cache_restore s fmt true writeOk).2).tmplogOffset = 0 := by
  refine ⟨?_, rfl⟩
  refine ⟨{ f with data := f.data.take truncCap }, ?_, rfl, rfl, rfl, rfl, rfl⟩
  unfold erase_volume_cache_restore
  simp only [if_pos rfl]
  apply List.mem_filter.mpr
  refine ⟨List.mem_map.mpr ⟨f, List.mem_filter.mpr ⟨hmem, hname⟩, rfl⟩, hwrite⟩

/-- A concrete saved log file and cache state. -/
def logFileW : LogFile :=
  { name := "last_log", mode := 384, uid := 0, gid := 0, data := [1, 2, 3] }

def cacheStateW : CacheState :=
  { logFiles := [logFileW,
      { name := "command", mode := 420, uid := 0, gid := 0, data := [9] }]
    tmplogOffset := 77 }

/-- Witness for `erase_volume_cache_preserves_logs` at `cacheStateW`. -/
theorem erase_volume_cache_preserves_logs_witness :
    logFileW ∈ cacheStateW.logFiles ∧
    isSavedLogName logFileW.name = true ∧
    ((∃ g ∈ ((erase_volume_cache_restore cacheStateW 0 true
          fun _ => true).2).logFiles,
        g.name = logFileW.name ∧ g.data = logFileW.data.take truncCap ∧
        g.mode = logFileW.mode ∧ g.uid = logFileW.uid ∧ g.gid = logFileW.gid) ∧
     ((erase_volume_cache_restore cacheStateW 0 true
        fun _ => true).2).tmplogOffset = 0) :=
  ⟨by decide, by decide,
   erase_volume_cache_preserves_logs cacheStateW 0 (fun _ => true) logFileW
     (by decide) (by decide) (by decide)⟩

/-- C9: the session finalizer is idempotent - a second call with the same
process globals and collaborator outcomes leaves the state it established
unchanged (in particular the saved locale is the same), logs are copied /
rotated only when the modified-flash marker is set, the control block ends
cleared and the command-queue file ends absent (under the respective
collaborator successes). -/
theorem finish_recovery_idempotent (g : FinGlobals) (env : FinEnv)
    (s : SysState) :
    ((finish_recovery g env (finish_recovery g env s).1).1 =
       (finish_recovery g env s).1) ∧
    (g.modifiedFlash = false →
       FinEv.copiedLogs ∉ (finish_recovery g env s).2) ∧
    (env.bcbClearOk = true → (finish_recovery g env s).1.bcbCleared = true) ∧
    (g.hasCache = true → env.mountCmdOk = true →
       (finish_recovery g env s).1.commandFileExists = false) ∧
    ((finish_recovery g env (finish_recovery g env s).1).1.localeFile =
       (finish_recovery g env s).1.localeFile) := by
  obtain ⟨loc, hc, mf⟩ := g
  obtain ⟨mlo, bco, mco⟩ := env
  by_cases hl : loc.isEmpty = true <;>
    cases hc <;> cases mf <;> cases mlo <;> cases bco <;> cases mco <;>
      simp [finish_recovery, copy_logs, hl]

/-- Concrete inputs for the finalizer. -/
def finGlobalsW : FinGlobals :=
  { locale := "en-US", hasCache := true, modifiedFlash := false }

def finEnvW : FinEnv :=
  { mountLocaleOk := true, bcbClearOk := true, mountCmdOk := true }

def sysStateW : SysState :=
  { localeFile := none, bcbCleared := false, commandFileExists := true
    cacheMounted := true }

/-- Witness for `finish_recovery_idempotent` at concrete inputs. -/
theorem finish_recovery_idempotent_witness :
    ((finish_recovery finGlobalsW finEnvW
        (finish_recovery finGlobalsW finEnvW sysStateW).1).1 =
       (finish_recovery finGlobalsW finEnvW sysStateW).1) ∧
    (FinEv.copiedLogs ∉ (finish_recovery finGlobalsW finEnvW sysStateW).2) ∧
    ((finish_recovery finGlobalsW finEnvW sysStateW).1.bcbCleared = true) ∧
    ((finish_recovery finGlobalsW finEnvW sysStateW).1.commandFileExists =
       false) ∧
    ((finish_recovery finGlobalsW finEnvW
        (finish_recovery finGlobalsW finEnvW sysStateW).1).1.localeFile =
       (finish_recovery finGlobalsW finEnvW sysStateW).1.localeFile) := by
  obtain ⟨h1, h2, h3, h4, h5⟩ :=
    finish_recovery_idempotent finGlobalsW finEnvW sysStateW
  exact ⟨h1, h2 rfl, h3 rfl, h4 rfl rfl, h5⟩

/-- C7: a Back or Home event terminates the menu loop immediately with the
corresponding sentinel - regardless of the current highlight and of any
further queued input - and a Refresh event terminates with the Refresh
sentinel exactly when the menu was constructed refreshable, being
swallowed (the loop continues on the remaining input) otherwise. -/
theorem menu_back_home_refresh (refreshable menuOnly : Bool) (ui : MenuUI)
    (selected : Int) (evs : List MenuEvent) :
    (get_menu_selection refreshable menuOnly ui selected
       (MenuEvent.key kGoBack :: evs) = some kGoBack) ∧
    (get_menu_selection refreshable menuOnly ui selected
       (MenuEvent.key kGoHome :: evs) = some kGoHome) ∧
    (get_menu_selection refreshable menuOnly ui selected
       (MenuEvent.key kRefresh :: evs) =
       if refreshable then some kRefresh
       else get_menu_selection refreshable menuOnly ui selected evs) := by
  refine ⟨?_, ?_, ?_⟩ <;>
    cases refreshable <;>
      simp [get_menu_selection, menuStep, menuAction, kGoBack, kGoHome,
        kRefresh, kHighlightUp, kHighlightDown, kScrollUp, kScrollDown,
        kInvokeItem]

/-- C6: the A/B wipe accepts a package only if the external verifier
accepted it, the metadata contains the `ota-type=BRICK` marker, the (last)
`pre-device=` field - which must be present - equals the device's product
property, and any `serialno=` field equals the device's serial property.
In particular a package whose product field differs from the running
device's product identifier is rejected even when the signature
verifies. -/
theorem wipe_ab_accepts_only_if (sz : Nat) (e : WipeEnv) (m : Option String)
    (hacc : (wipe_ab_device sz e m).1 = true) :
    e.verifyOk = true ∧
    (splitNL e.metadata).contains "ota-type=BRICK" = true ∧
    lastTagValue "pre-device=" 11 (splitNL e.metadata) = some e.productProp ∧
    (∀ s, lastTagValue "serialno=" 9 (splitNL e.metadata) = some s →
      s = e.serialProp) := by
  have hcheck : (check_wipe_package sz e).1 = true := by
    by_cases hc : (check_wipe_package sz e).1 = true
    · exact hc
    · rw [Bool.not_eq_true] at hc
      unfold wipe_ab_device at hacc
      simp only [hc, Bool.not_false, if_true] at hacc
      cases hacc
  unfold check_wipe_package at hcheck
  by_cases h0 : sz = 0
  · simp [h0] at hcheck
  rw [if_neg h0] at hcheck
  cases hr : e.readOk with
  | false => simp [hr] at hcheck
  | true =>
  simp only [hr, Bool.not_true, Bool.false_eq_true, if_false] at hcheck
  cases hv : e.verifyOk with
  | false => simp [hv] at hcheck
  | true =>
  simp only [hv, Bool.not_true, Bool.false_eq_true, if_false] at hcheck
  cases hz : e.zipOpenOk with
  | false => simp [hz] at hcheck
  | true =>
  simp only [hz, Bool.not_true, Bool.false_eq_true, if_false] at hcheck
  cases hm : e.metadataOk with
  | false => simp [hm] at hcheck
  | true =>
  simp only [hm, Bool.not_true, Bool.false_eq_true, if_false] at hcheck
  simp only [Bool.and_eq_true, Bool.or_eq_true] at hcheck
  obtain ⟨⟨hota, hdev⟩, hserial⟩ := hcheck
  rw [foldl_meta_ota] at hota
  rw [foldl_meta_dev] at hdev
  refine ⟨rfl, by simpa using hota, ?_, ?_⟩
  · cases hlv : lastTagValue "pre-device=" 11 (splitNL e.metadata) with
    | none => rw [hlv] at hdev; cases hdev
    | some v =>
      rw [hlv] at hdev
      simp only [Option.elim] at hdev
      rw [beq_iff_eq] at hdev
      rw [hdev]
  · intro s hs
    have hany : ((splitNL e.metadata).any
        fun l => strStartsWith l "serialno=") = true := by
      by_cases ha : ((splitNL e.metadata).any
          fun l => strStartsWith l "serialno=") = true
      · exact ha
      · rw [Bool.not_eq_true] at ha
        rw [lastTagValue_eq_none _ _ _ ha] at hs
        cases hs
    rcases hserial with hno | hmatch
    · rw [foldl_meta_hasSerial] at hno
      simp [hany] at hno
    · rw [foldl_meta_serial, hs] at hmatch
      simp only [Option.elim] at hmatch
      rw [beq_iff_eq] at hmatch
      exact hmatch

/-- A concrete environment whose staged package passes every check. -/
def abEnvW : WipeEnv :=
  { readOk := true
    verifyOk := true
    zipOpenOk := true
    metadataOk := true
    metadata := "ota-type=BRICK\npre-device=sailfish\nserialno=SN123"
    productProp := "sailfish"
    serialProp := "SN123" }

/-- Witness for `wipe_ab_accepts_only_if` at `abEnvW`. -/
theorem wipe_ab_accepts_only_if_witness :
    (wipe_ab_device 1 abEnvW (some "system\n")).1 = true ∧
    (abEnvW.verifyOk = true ∧
     (splitNL abEnvW.metadata).contains "ota-type=BRICK" = true ∧
     lastTagValue "pre-device=" 11 (splitNL abEnvW.metadata) =
       some abEnvW.productProp ∧
     (∀ s, lastTagValue "serialno=" 9 (splitNL abEnvW.metadata) = some s →
       s = abEnvW.serialProp)) :=
  ⟨by decide, wipe_ab_accepts_only_if 1 abEnvW (some "system\n") (by decide)⟩

/-- C10: invoking the A/B wipe with a package size of zero fails
immediately with an empty effect trace: the staging area is never read,
the verifier is never called, the partition manifest is never read, and no
partition is wiped. -/
theorem wipe_ab_zero_package_size (e : WipeEnv) (m : Option String) :
    check_wipe_package 0 e = (false, []) ∧
    wipe_ab_device 0 e m = (false, []) := by
  refine ⟨rfl, ?_⟩
  unfold wipe_ab_device
  rw [show check_wipe_package 0 e = (false, []) from rfl]
  rfl

/-- C3: when no invocation arguments are supplied beyond the program name
and the control block's recovery field splits into the "recovery" marker
followed by argument lines (at least one surviving the empty/NUL filter),
the resolved arguments are exactly the control-block arguments, the
command-queue file is never consulted, and the resolved arguments excluding
the program name are persisted back into the control block. -/
theorem get_args_from_bcb (prog : String) (boot : BootMsg) (hasCache : Bool)
    (cf : Option String) (rest : List String)
    (hsplit : splitNL boot.recovery = "recovery" :: rest)
    (hne : rest.filter keepToken ≠ []) :
    get_args [prog] boot hasCache cf =
      { args := prog :: rest.filter keepToken,
        commandFileConsulted := false,
        bcbOptions := rest.filter keepToken } := by
  obtain ⟨a, as, hf⟩ : ∃ a as, rest.filter keepToken = a :: as := by
    cases h : rest.filter keepToken with
    | nil => exact absurd h hne
    | cons a as => exact ⟨a, as, rfl⟩
  simp [get_args, hsplit, hf]

/-- Witness for `get_args_from_bcb` at a concrete control block. -/
theorem get_args_from_bcb_witness :
    (splitNL "recovery\n--update_package=/cache/a.zip\n--retry_count=2" =
       "recovery" :: ["--update_package=/cache/a.zip", "--retry_count=2"]) ∧
    (["--update_package=/cache/a.zip", "--retry_count=2"].filter keepToken ≠ []) ∧
    get_args ["recovery"]
        (BootMsg.mk "" "" "" "recovery\n--update_package=/cache/a.zip\n--retry_count=2")
        true (some "--wipe_cache") =
      { args := "recovery" ::
          ["--update_package=/cache/a.zip", "--retry_count=2"].filter keepToken,
        commandFileConsulted := false,
        bcbOptions := ["--update_package=/cache/a.zip", "--retry_count=2"].filter keepToken } := by
  refine ⟨by decide, by decide, ?_⟩
  exact get_args_from_bcb "recovery"
    (BootMsg.mk "" "" "" "recovery\n--update_package=/cache/a.zip\n--retry_count=2")
    true (some "--wipe_cache")
    ["--update_package=/cache/a.zip", "--retry_count=2"] (by decide) (by decide)

/-- Witness for `erase_volume_convert_fbe_spec` at a concrete environment. -/
theorem erase_volume_convert_fbe_spec_witness :
    (some "convert_fbe" = some "convert_fbe") ∧
    ((FbeEnv.mk true true 0).mkdirOk = true → (FbeEnv.mk true true 0).fopenOk = true →
       erase_volume_noncache DATA_ROOT (some "convert_fbe") (FbeEnv.mk true true 0) =
         ((0 : Int) == 0,
          [FbeEv.mkdirFbeDir, FbeEv.createFbeFile,
           FbeEv.formatVolumeWithDir DATA_ROOT CONVERT_FBE_DIR,
           FbeEv.removeFbeFile, FbeEv.rmdirFbeDir])) ∧
    (((FbeEnv.mk true true 0).mkdirOk = false ∨ (FbeEnv.mk true true 0).fopenOk = false) →
       (erase_volume_noncache DATA_ROOT (some "convert_fbe") (FbeEnv.mk true true 0)).1 = true ∧
       formattedVolume DATA_ROOT
         (erase_volume_noncache DATA_ROOT (some "convert_fbe") (FbeEnv.mk true true 0)).2 = false) := by
  refine ⟨rfl, ?_, ?_⟩
  · exact (erase_volume_convert_fbe_spec (FbeEnv.mk true true 0) (some "convert_fbe") rfl).1
  · exact (erase_volume_convert_fbe_spec (FbeEnv.mk true true 0) (some "convert_fbe") rfl).2

end Recovery
